import Mathlib

/-!
Shallow embedding of `hil/ext/switches/brocade.py` (Brocade NOS switch
driver).  The driver issues an ordered sequence of HTTP-like requests
against a remote device and interprets the structured (XML) responses.

Modelling choices:
* A response document is reduced to the fields the driver reads
  (`shutdown`, `vlan-mode`, `allowed/vlan/add`, `native-vlan`), each an
  `Option` — `none` models an absent element (for which `element.find`
  returns `None` in Python and a dereference raises `AttributeError`).
  An element that is present is modelled together with its text; empty
  elements (text `None`) are outside the modelled domain.
* The device is an oracle `dev : Nat → Response` giving the response to
  the n-th request issued on the session, so that temporal claims
  (ordering of requests, per-call tolerated status codes) are statable.
* Driver state `St` records how many requests have been issued and the
  ordered trace of issued requests.  Every operation is explicit state
  passing returning `Except DriverError α × St`; an error outcome still
  carries the trace of the requests that were issued before the raise.
-/

namespace Brocade

/-- The text of the `allowed/vlan/add` element of a trunk document
(`none` = element absent). -/
structure VlanElem where
  add : Option String
deriving DecidableEq, Repr

/-- The `allowed/vlan` nesting of a trunk document. -/
structure AllowedElem where
  vlan : Option VlanElem
deriving DecidableEq, Repr

/-- A parsed response document, reduced to the fields the driver reads.
`none` models an absent element. -/
structure Doc where
  shutdown : Option String
  vlanMode : Option String
  allowed : Option AllowedElem
  nativeVlan : Option String
deriving DecidableEq, Repr

/-- A transport response: HTTP status code plus parsed body. -/
structure Response where
  status : Nat
  doc : Doc
deriving DecidableEq, Repr

/-- One issued request: method, url, optional body, and the per-call
`acceptable_error_codes` tolerance set. -/
structure Request where
  method : String
  url : String
  data : Option String
  acceptable : List Nat
deriving DecidableEq, Repr

/-- Session state: index of the next request in the device oracle and the
ordered trace of requests issued so far. -/
structure St where
  k : Nat
  trace : List Request
deriving DecidableEq, Repr

/-- Connection parameters of the driver (columns of the `Brocade` model). -/
structure Config where
  hostname : String
  username : String
  password : String
  interface_type : String
deriving DecidableEq, Repr

/-- The errors the driver can raise.  `badArgumentError` is HIL's
`BadArgumentError` (the spec's `InvalidArgument`); `switchError` is HIL's
`SwitchError`; `attributeError` and `assertionError` are the Python
builtins. -/
inductive DriverError where
  | badArgumentError (msg : String)
  | switchError (msg : String)
  | attributeError
  | assertionError (msg : String)
deriving DecidableEq, Repr

instance {ε α : Type} [DecidableEq ε] [DecidableEq α] :
    DecidableEq (Except ε α) := fun x y =>
  match x, y with
  | .ok a, .ok b =>
    if h : a = b then .isTrue (by rw [h]) else .isFalse (by simp [h])
  | .error e, .error f =>
    if h : e = f then .isTrue (by rw [h]) else .isFalse (by simp [h])
  | .ok _, .error _ => .isFalse (by simp)
  | .error _, .ok _ => .isFalse (by simp)

/-- Status codes treated as success by the transport: 2xx, plus the
per-call acceptable codes. -/
def tolerates (acceptable : List Nat) (status : Nat) : Bool :=
  (200 ≤ status && status < 300) || acceptable.contains status

/-- Modelled from the spec: `_make_request` of `_vlan_http.Session` is not
under src/.  Per spec §6/§7, it performs one request and returns the
response; any status code outside the 2xx success class and the per-call
`acceptable_error_codes` set is surfaced as a `SwitchError` carrying the
device-provided detail, and is not retried. -/
def make_request (dev : Nat → Response) (method url : String)
    (data : Option String) (acceptable : List Nat) (st : St) :
    Except DriverError Response × St :=
  ((if tolerates acceptable (dev st.k).status then .ok (dev st.k)
    else .error (.switchError "request failed")),
   ⟨st.k + 1, st.trace ++ [⟨method, url, data, acceptable⟩]⟩)

/-- A bare `requests.put` call (used only by
`remove_all_vlans_from_trunk`): issues the request but never inspects the
status code, so it cannot raise. -/
def raw_put (url : String) (data : Option String) (st : St) :
    Except DriverError Unit × St :=
  (.ok (), ⟨st.k + 1, st.trace ++ [⟨"PUT", url, data, []⟩]⟩)

/-- `Brocade._construct_url`: base address, fixed configuration prefix,
interface type, the interface wrapped in escaped quotes (`%22`), and, when
a suffix is given, `/switchport/` plus the suffix. -/
def construct_url (cfg : Config) (interface suffix : String) : String :=
  cfg.hostname ++ "/rest/config/running/interface/" ++ cfg.interface_type
    ++ "/%22" ++ interface ++ "%22"
    ++ (if suffix ≠ "" then "/switchport/" ++ suffix else "")

/-! ### Port-name validator -/

/-- Split a character list on a separator character (like Python
`str.split(sep)`: `n` separators yield `n+1` segments, empty segments
included). -/
def splitOnChar (sep : Char) : List Char → List (List Char)
  | [] => [[]]
  | c :: cs =>
    let r := splitOnChar sep cs
    if c = sep then [] :: r
    else
      match r with
      | [] => [[c]]
      | h :: t => (c :: h) :: t

/-- One nonempty all-digit segment (`\d+`). -/
def segOk (cs : List Char) : Bool :=
  !cs.isEmpty && cs.all Char.isDigit

/-- The core shape of the port-name regex `\d+/\d+(/\d+)?` matched against
the whole input: two or three slash-separated nonempty digit segments.
Since `/` is not a digit this is exactly the language of the regex body. -/
def portShape (cs : List Char) : Bool :=
  let segs := splitOnChar '/' cs
  (segs.length == 2 || segs.length == 3) && segs.all segOk

/-- Python `re.match(r'^\d+/\d+(/\d+)?$', s)` semantics: `$` (without
`re.MULTILINE`) matches at the end of the string or just before a single
newline at the end of the string, so the accepted language is the core
shape optionally followed by one trailing `'\n'`. -/
def pyPortMatch (cs : List Char) : Bool :=
  portShape cs || (decide (cs.getLast? = some '\n') && portShape cs.dropLast)

/-- `Brocade.validate_port_name`: raises `BadArgumentError` when the port
name does not match `^\d+/\d+(/\d+)?$`. -/
def validate_port_name (port : String) : Except DriverError Unit :=
  if pyPortMatch port.data then .ok ()
  else .error (.badArgumentError
    "Invalid port name. Valid port names for this switch are of the from 1/0/1 or 1/2")

/-! ### VLAN-range codec -/

/-- Maximal digit prefix of a character list (greedy `\d+`): matched
digits and the rest. -/
def takeDigits : List Char → List Char × List Char
  | [] => ([], [])
  | c :: cs =>
    if c.isDigit then (c :: (takeDigits cs).1, (takeDigits cs).2)
    else ([], c :: cs)

/-- Scan one `INT(-INT)?` token starting at the head of the input (greedy
with backtracking: a dash not followed by a digit is left unconsumed).
Returns the matched characters and the rest, or `none` when the input does
not start with a digit. -/
def scanItem (cs : List Char) : Option (List Char × List Char) :=
  if (takeDigits cs).1.isEmpty then none
  else
    match (takeDigits cs).2 with
    | '-' :: r2 =>
      if (takeDigits r2).1.isEmpty then some ((takeDigits cs).1, (takeDigits cs).2)
      else some ((takeDigits cs).1 ++ '-' :: (takeDigits r2).1, (takeDigits r2).2)
    | _ => some ((takeDigits cs).1, (takeDigits cs).2)

/-- Scan the Kleene star `(,INT(-INT)?)*` greedily; the fuel argument
bounds recursion (each iteration consumes at least two characters). -/
def scanTail (fuel : Nat) (cs : List Char) : List Char × List Char :=
  match fuel with
  | 0 => ([], cs)
  | fuel' + 1 =>
    match cs with
    | [] => ([], [])
    | c :: r =>
      if c = ',' then
        match scanItem r with
        | some mr =>
          (',' :: (mr.1 ++ (scanTail fuel' mr.2).1), (scanTail fuel' mr.2).2)
        | none => ([], c :: r)
      else ([], c :: r)

/-- Python `re.search(r'(\d+(-\d+)?)(,\d+(-\d+)?)*', s)`: the leftmost
match.  The pattern starts with `\d+`, so the match starts at the first
digit of the input; from there each greedy piece is deterministic because
nothing follows the star in the pattern.  Returns the matched substring,
or `none` when the input contains no digit. -/
def searchVlans : List Char → Option (List Char)
  | [] => none
  | c :: cs =>
    if c.isDigit then
      match scanItem (c :: cs) with
      | some (m, r) => some (m ++ (scanTail r.length r).1)
      | none => none
    else searchVlans cs

/-- Decimal value of a digit string (as Python `int`; leading zeros
allowed). -/
def digitsToNat (cs : List Char) : Nat :=
  cs.foldl (fun n c => n * 10 + (c.toNat - 48)) 0

/-- Modelled from the spec: `parse_vlans` of `hil.ext.switches.common` is
not under src/.  Per spec §4.2, each comma-separated token is expanded: a
bare integer denotes itself and `lo-hi` denotes the inclusive integer
range `[lo, hi]`. -/
def parse_vlans (s : String) : List Nat :=
  (splitOnChar ',' s.data).flatMap fun tok =>
    match splitOnChar '-' tok with
    | [lo, hi] => List.range' (digitsToNat lo) (digitsToNat hi + 1 - digitsToNat lo)
    | _ => [digitsToNat tok]

/-- The VLAN-range codec of `_get_vlans`: locate the first substring
matching `(\d+(-\d+)?)(,\d+(-\d+)?)*`; no match decodes to the empty list,
a match is expanded by `parse_vlans`. -/
def vlan_range_decode (s : String) : List Nat :=
  match searchVlans s.data with
  | none => []
  | some m => parse_vlans (String.mk m)

/-! ### Port-state readers -/

/-- `Brocade._is_interface_off`: GET the switchport document; an absent
`shutdown` element means the port is on; text `"true"` means it is off;
any other text is a `SwitchError`. -/
def is_interface_off (cfg : Config) (dev : Nat → Response)
    (interface : String) (st : St) : Except DriverError Bool × St :=
  let p := make_request dev "GET" (construct_url cfg interface "") none [] st
  (match p.1 with
   | .error e => .error e
   | .ok resp =>
     match resp.doc.shutdown with
     | none => .ok false
     | some t =>
       if t = "true" then .ok true
       else .error (.switchError "Could not determine if interface is off"),
   p.2)

/-- `Brocade._get_mode`: GET the mode document and dereference the
`vlan-mode` element's text.  When the element is absent, `find` returns
`None` and the `.text` dereference raises an uncaught `AttributeError`. -/
def get_mode (cfg : Config) (dev : Nat → Response)
    (interface : String) (st : St) : Except DriverError String × St :=
  let p := make_request dev "GET" (construct_url cfg interface "mode") none [] st
  (match p.1 with
   | .error e => .error e
   | .ok resp =>
     match resp.doc.vlanMode with
     | none => .error .attributeError
     | some m => .ok m,
   p.2)

/-- `Brocade._get_vlans`: GET the trunk document; dereference
`allowed/vlan/add`; an `AttributeError` from any absent level is caught
and yields `[]`; otherwise the text is decoded by the VLAN-range codec
and each VLAN is paired with its `vlan/<id>` tag. -/
def get_vlans (cfg : Config) (dev : Nat → Response)
    (interface : String) (st : St) :
    Except DriverError (List (String × Nat)) × St :=
  let p := make_request dev "GET" (construct_url cfg interface "trunk") none [] st
  (match p.1 with
   | .error e => .error e
   | .ok resp =>
     match resp.doc.allowed with
     | none => .ok []
     | some a =>
       match a.vlan with
       | none => .ok []
       | some v =>
         match v.add with
         | none => .ok []
         | some text =>
           .ok ((vlan_range_decode text).map fun x => ("vlan/" ++ toString x, x)),
   p.2)

/-- `Brocade._get_native_vlan`: GET the trunk document; an absent
`native-vlan` element raises `AttributeError`, caught to yield `none`;
otherwise the tagged pair `('vlan/native', text)` is returned. -/
def get_native_vlan (cfg : Config) (dev : Nat → Response)
    (interface : String) (st : St) :
    Except DriverError (Option (String × String)) × St :=
  let p := make_request dev "GET" (construct_url cfg interface "trunk") none [] st
  (match p.1 with
   | .error e => .error e
   | .ok resp =>
     match resp.doc.nativeVlan with
     | none => .ok none
     | some t => .ok (some ("vlan/native", t)),
   p.2)

/-! ### Port-state mutators -/

/-- `Brocade._port_shutdown`: POST the shutdown flag; 409 (already shut
down) is an acceptable code, making the call idempotent. -/
def port_shutdown (cfg : Config) (dev : Nat → Response)
    (interface : String) (st : St) : Except DriverError Unit × St :=
  let p := make_request dev "POST" (construct_url cfg interface "")
      (some "<shutdown>true</shutdown>") [409] st
  (p.1.map fun _ => (), p.2)

/-- The `if self._is_interface_off(interface): DELETE url+"/shutdown"`
step of `_enable_and_set_mode`. -/
def maybeClearShutdown (dev : Nat → Response) (off : Bool) (url : String)
    (st : St) : Except DriverError Unit × St :=
  if off then
    let p := make_request dev "DELETE" (url ++ "/shutdown") none [] st
    (p.1.map fun _ => (), p.2)
  else (.ok (), st)

/-- `Brocade._enable_and_set_mode`: (1) read the shutdown state and clear
it if set; (2) POST `<switchport>` to enable switching, tolerating 409;
(3) only then check the mode string: `access`/`trunk` is PUT to the mode
resource, anything else raises `AssertionError('Invalid mode')`. -/
def enable_and_set_mode (cfg : Config) (dev : Nat → Response)
    (interface mode : String) (st : St) : Except DriverError Unit × St :=
  let url := construct_url cfg interface ""
  let p1 := is_interface_off cfg dev interface st
  match p1.1 with
  | .error e => (.error e, p1.2)
  | .ok off =>
    let p2 := maybeClearShutdown dev off url p1.2
    match p2.1 with
    | .error e => (.error e, p2.2)
    | .ok _ =>
      let p3 := make_request dev "POST" url (some "<switchport></switchport>") [409] p2.2
      match p3.1 with
      | .error e => (.error e, p3.2)
      | .ok _ =>
        if mode = "access" || mode = "trunk" then
          let p4 := make_request dev "PUT" (construct_url cfg interface "mode")
              (some ("<mode><vlan-mode>" ++ mode ++ "</vlan-mode></mode>")) [] p3.2
          (p4.1.map fun _ => (), p4.2)
        else
          (.error (.assertionError "Invalid mode"), p3.2)

/-- `Brocade._add_vlan_to_trunk`: force trunk mode, then PUT the vlan
onto the allowed list.  (The payload's missing `</add>` is verbatim from
the source.) -/
def add_vlan_to_trunk (cfg : Config) (dev : Nat → Response)
    (interface vlan : String) (st : St) : Except DriverError Unit × St :=
  let p1 := enable_and_set_mode cfg dev interface "trunk" st
  match p1.1 with
  | .error e => (.error e, p1.2)
  | .ok _ =>
    let p2 := make_request dev "PUT" (construct_url cfg interface "trunk/allowed/vlan")
        (some ("<vlan><add>" ++ vlan ++ "</vlan></vlan>")) [] p1.2
    (p2.1.map fun _ => (), p2.2)

/-- `Brocade._remove_vlan_from_trunk`: a single PUT removing the vlan
from the allowed list; no mode change is forced. -/
def remove_vlan_from_trunk (cfg : Config) (dev : Nat → Response)
    (interface vlan : String) (st : St) : Except DriverError Unit × St :=
  let p := make_request dev "PUT" (construct_url cfg interface "trunk/allowed/vlan")
      (some ("<vlan><remove>" ++ vlan ++ "</remove></vlan>")) [] st
  (p.1.map fun _ => (), p.2)

/-- `Brocade._remove_all_vlans_from_trunk`: a single bare `requests.put`
(not `_make_request`), so the status code is never inspected. -/
def remove_all_vlans_from_trunk (cfg : Config) (_dev : Nat → Response)
    (interface : String) (st : St) : Except DriverError Unit × St :=
  raw_put (construct_url cfg interface "trunk/allowed/vlan")
    (some "<vlan><none>true</none></vlan>") st

/-- `Brocade._disable_native_tag`: DELETE the native-vlan tag resource,
tolerating 404 (the resource may not exist). -/
def disable_native_tag (cfg : Config) (dev : Nat → Response)
    (interface : String) (st : St) : Except DriverError Unit × St :=
  let p := make_request dev "DELETE" (construct_url cfg interface "trunk/tag/native-vlan")
      none [404] st
  (p.1.map fun _ => (), p.2)

/-- `Brocade._set_native_vlan`: force trunk mode, disable native-vlan
tagging, then PUT the native vlan. -/
def set_native_vlan (cfg : Config) (dev : Nat → Response)
    (interface vlan : String) (st : St) : Except DriverError Unit × St :=
  let p1 := enable_and_set_mode cfg dev interface "trunk" st
  match p1.1 with
  | .error e => (.error e, p1.2)
  | .ok _ =>
    let p2 := disable_native_tag cfg dev interface p1.2
    match p2.1 with
    | .error e => (.error e, p2.2)
    | .ok _ =>
      let p3 := make_request dev "PUT" (construct_url cfg interface "trunk")
          (some ("<trunk><native-vlan>" ++ vlan ++ "</native-vlan></trunk>")) [] p2.2
      (p3.1.map fun _ => (), p3.2)

/-- `Brocade._remove_native_vlan`: a single DELETE of the native-vlan
resource. -/
def remove_native_vlan (cfg : Config) (dev : Nat → Response)
    (interface : String) (st : St) : Except DriverError Unit × St :=
  let p := make_request dev "DELETE" (construct_url cfg interface "trunk/native-vlan")
      none [] st
  (p.1.map fun _ => (), p.2)

/-! ### The requests each operation issues (for use in theorem statements) -/

/-- The shutdown-state read issued by `is_interface_off`. -/
def getShutdownReq (cfg : Config) (interface : String) : Request :=
  ⟨"GET", construct_url cfg interface "", none, []⟩

/-- The shutdown-clear request of `enable_and_set_mode` (issued only when
the port is reported shut down). -/
def delShutdownReq (cfg : Config) (interface : String) : Request :=
  ⟨"DELETE", construct_url cfg interface "" ++ "/shutdown", none, []⟩

/-- The switching-enable request of `enable_and_set_mode` (409 tolerated). -/
def postSwitchportReq (cfg : Config) (interface : String) : Request :=
  ⟨"POST", construct_url cfg interface "", some "<switchport></switchport>", [409]⟩

/-- The mode-set request of `enable_and_set_mode`. -/
def putModeReq (cfg : Config) (interface mode : String) : Request :=
  ⟨"PUT", construct_url cfg interface "mode",
   some ("<mode><vlan-mode>" ++ mode ++ "</vlan-mode></mode>"), []⟩

/-- The allowed-VLAN-list addition request of `add_vlan_to_trunk`. -/
def putAddVlanReq (cfg : Config) (interface vlan : String) : Request :=
  ⟨"PUT", construct_url cfg interface "trunk/allowed/vlan",
   some ("<vlan><add>" ++ vlan ++ "</vlan></vlan>"), []⟩

/-- The native-vlan tag-disable request of `disable_native_tag`
(404 tolerated). -/
def delNativeTagReq (cfg : Config) (interface : String) : Request :=
  ⟨"DELETE", construct_url cfg interface "trunk/tag/native-vlan", none, [404]⟩

/-- The native-vlan set request of `set_native_vlan`. -/
def putNativeVlanReq (cfg : Config) (interface vlan : String) : Request :=
  ⟨"PUT", construct_url cfg interface "trunk",
   some ("<trunk><native-vlan>" ++ vlan ++ "</native-vlan></trunk>"), []⟩

/-! ### Concrete fixtures for witnesses and counterexamples -/

/-- A document with every modelled element absent. -/
def emptyDoc : Doc := ⟨none, none, none, none⟩

/-- A small concrete configuration. -/
def cfg1 : Config := ⟨"http://sw", "admin", "pw", "tengigabitethernet"⟩

/-- A device that answers every request with 200 and an empty document. -/
def devOK : Nat → Response := fun _ => ⟨200, emptyDoc⟩

/-- A device that answers every request with status 500. -/
def dev500 : Nat → Response := fun _ => ⟨500, emptyDoc⟩

/-- The initial session state: no request issued yet. -/
def st0 : St := ⟨0, []⟩

/-- A device whose shutdown element reads `"true"`. -/
def devShut : Nat → Response := fun _ => ⟨200, ⟨some "true", none, none, none⟩⟩

/-- A device whose shutdown element has an unexpected value. -/
def devShutBad : Nat → Response := fun _ => ⟨200, ⟨some "maybe", none, none, none⟩⟩

/-- A device that answers every request with status 409. -/
def dev409 : Nat → Response := fun _ => ⟨409, emptyDoc⟩

/-- A device that answers the second request (the switching-enable POST of
`enable_and_set_mode`) with 409 and everything else with 200. -/
def dev409second : Nat → Response :=
  fun k => if k = 1 then ⟨409, emptyDoc⟩ else ⟨200, emptyDoc⟩

/-- A trunk document whose `allowed` element is present but whose `vlan`
child is absent. -/
def devAllowedOnly : Nat → Response :=
  fun _ => ⟨200, ⟨none, none, some ⟨none⟩, none⟩⟩

/-- A trunk document with `allowed/vlan` present but `add` absent. -/
def devAllowedVlanOnly : Nat → Response :=
  fun _ => ⟨200, ⟨none, none, some ⟨some ⟨none⟩⟩, none⟩⟩

/-!
## Theorems

Helper lemmas first, then one theorem per claim (with witness or
counterexample theorems where required).
-/

theorem make_request_snd (dev : Nat → Response) (m u : String)
    (d : Option String) (a : List Nat) (st : St) :
    (make_request dev m u d a st).2 = ⟨st.k + 1, st.trace ++ [⟨m, u, d, a⟩]⟩ :=
  rfl

theorem is_interface_off_snd (cfg : Config) (dev : Nat → Response)
    (i : String) (st : St) :
    (is_interface_off cfg dev i st).2 =
      ⟨st.k + 1, st.trace ++ [getShutdownReq cfg i]⟩ :=
  rfl

/-- `pyPortMatch` accepts exactly the core regex shape, possibly followed
by a single trailing newline (Python `$` semantics). -/
theorem pyPortMatch_iff (cs : List Char) :
    pyPortMatch cs = true ↔
      (portShape cs = true ∨ ∃ t, cs = t ++ ['\n'] ∧ portShape t = true) := by
  unfold pyPortMatch
  simp only [Bool.or_eq_true, Bool.and_eq_true, decide_eq_true_eq]
  constructor
  · rintro (h | ⟨hl, hd⟩)
    · exact Or.inl h
    · rcases List.getLast?_eq_some_iff.mp hl with ⟨t, rfl⟩
      exact Or.inr ⟨t, rfl, by simpa [List.dropLast_concat] using hd⟩
  · rintro (h | ⟨t, rfl, ht⟩)
    · exact Or.inl h
    · exact Or.inr ⟨List.getLast?_eq_some_iff.mpr ⟨t, rfl⟩,
        by simpa [List.dropLast_concat] using ht⟩

/-- C3 counterexample: the claim says every string other than two or three
slash-separated digit segments is rejected, but the validator accepts
`"1/2\n"` (Python `$` also matches just before a trailing newline). -/
theorem validate_port_name_cex :
    portShape "1/2\n".data = false ∧ validate_port_name "1/2\n" = .ok () := by
  decide

/-- C3 (amended): the validator accepts exactly the strings matching
`^\d+/\d+(/\d+)?$` under Python semantics — two or three slash-separated
nonempty digit segments, optionally followed by one trailing newline —
and rejects every other string with a `BadArgumentError`. -/
theorem validate_port_name_spec (s : String) :
    (validate_port_name s = .ok () ↔
      (portShape s.data = true ∨
        ∃ t, s.data = t ++ ['\n'] ∧ portShape t = true)) ∧
    (validate_port_name s ≠ .ok () →
      validate_port_name s = .error (.badArgumentError
        "Invalid port name. Valid port names for this switch are of the from 1/0/1 or 1/2")) := by
  have hiff := pyPortMatch_iff s.data
  constructor
  · rw [← hiff]
    unfold validate_port_name
    cases h : pyPortMatch s.data with
    | false => simp [h]
    | true => simp [h]
  · unfold validate_port_name
    cases h : pyPortMatch s.data with
    | false => intro _; simp
    | true => intro hne; simp at hne

/-- C3 witness: the amended theorem applied to the concrete rejected
string `"1/2/"`. -/
theorem validate_port_name_spec_witness :
    validate_port_name "1/2/" = .error (.badArgumentError
      "Invalid port name. Valid port names for this switch are of the from 1/0/1 or 1/2") :=
  (validate_port_name_spec "1/2/").2 (by decide)

theorem takeDigits_append : ∀ cs : List Char,
    (takeDigits cs).1 ++ (takeDigits cs).2 = cs := by
  intro cs
  induction cs with
  | nil => rfl
  | cons c cs ih =>
    unfold takeDigits
    cases h : c.isDigit with
    | false => simp
    | true => simpa using ih

theorem scanItem_fst_ne_nil (cs m r : List Char)
    (h : scanItem cs = some (m, r)) : m ≠ [] := by
  unfold scanItem at h
  split at h
  · exact absurd h (by simp)
  case _ hne' =>
    have hne : (takeDigits cs).1 ≠ [] := fun hnil => hne' (by simp [hnil])
    split at h
    · split at h <;> cases h
      · exact hne
      · simp
    · cases h; exact hne

theorem scanItem_append (cs m r : List Char)
    (h : scanItem cs = some (m, r)) : m ++ r = cs := by
  have hd := takeDigits_append cs
  unfold scanItem at h
  split at h
  · exact absurd h (by simp)
  · split at h
    case _ r2 heq =>
      split at h
      · cases h; exact hd
      · cases h
        have hd2 := takeDigits_append r2
        rw [heq] at hd
        calc ((takeDigits cs).1 ++ '-' :: (takeDigits r2).1) ++ (takeDigits r2).2
            = (takeDigits cs).1 ++ '-' :: ((takeDigits r2).1 ++ (takeDigits r2).2) := by
              simp
          _ = (takeDigits cs).1 ++ '-' :: r2 := by rw [hd2]
          _ = cs := hd
    case _ =>
      cases h; exact hd

theorem scanTail_append : ∀ (fuel : Nat) (cs : List Char),
    (scanTail fuel cs).1 ++ (scanTail fuel cs).2 = cs := by
  intro fuel
  induction fuel with
  | zero => intro cs; rfl
  | succ fuel ih =>
    intro cs
    rcases cs with _ | ⟨c, r⟩
    · rfl
    · unfold scanTail
      by_cases hc : c = ','
      · subst hc
        simp only [if_pos rfl]
        cases hsi : scanItem r with
        | none => simp
        | some p =>
          rcases p with ⟨m, r2⟩
          simp only []
          have hmr := scanItem_append r m r2 hsi
          calc (',' :: (m ++ (scanTail fuel r2).1)) ++ (scanTail fuel r2).2
              = ',' :: (m ++ ((scanTail fuel r2).1 ++ (scanTail fuel r2).2)) := by simp
            _ = ',' :: (m ++ r2) := by rw [ih r2]
            _ = ',' :: r := by rw [hmr]
      · simp [hc]

theorem searchVlans_decomp : ∀ cs m, searchVlans cs = some m →
    ∃ pre post, cs = pre ++ m ++ post ∧
      (∀ c ∈ pre, c.isDigit = false) ∧ m ≠ [] := by
  intro cs
  induction cs with
  | nil => intro m h; cases h
  | cons c cs ih =>
    intro m h
    unfold searchVlans at h
    cases hd : c.isDigit with
    | false =>
      rw [hd] at h
      simp only [Bool.false_eq_true, if_false] at h
      rcases ih m h with ⟨pre, post, heq, hpre, hm⟩
      refine ⟨c :: pre, post, by simp [heq], ?_, hm⟩
      intro x hx
      rcases List.mem_cons.mp hx with rfl | hx
      · exact hd
      · exact hpre x hx
    | true =>
      rw [hd] at h
      simp only [if_true] at h
      cases hsi : scanItem (c :: cs) with
      | none => rw [hsi] at h; cases h
      | some p =>
        rcases p with ⟨mi, r⟩
        rw [hsi] at h
        cases h
        have h1 := scanItem_append _ _ _ hsi
        have h2 := scanTail_append r.length r
        refine ⟨[], (scanTail r.length r).2, ?_, by simp, ?_⟩
        · calc c :: cs = mi ++ r := h1.symm
            _ = mi ++ ((scanTail r.length r).1 ++ (scanTail r.length r).2) := by rw [h2]
            _ = [] ++ (mi ++ (scanTail r.length r).1) ++ (scanTail r.length r).2 := by
              simp
        · have := scanItem_fst_ne_nil _ _ _ hsi
          simp [this]

theorem searchVlans_none (cs : List Char) (h : ∀ c ∈ cs, c.isDigit = false) :
    searchVlans cs = none := by
  induction cs with
  | nil => rfl
  | cons c cs ih =>
    unfold searchVlans
    rw [h c (by simp)]
    simp only [Bool.false_eq_true, if_false]
    exact ih fun x hx => h x (by simp [hx])

/-- C6: the VLAN-range codec of `_get_vlans`.  A text with no match (in
particular any digit-free text) decodes to the empty set; a match is the
expansion, by `parse_vlans`, of the first grammar-matching substring (the
matched region is preceded only by non-digit characters); and the spec's
two concrete vectors decode as stated. -/
theorem vlan_range_codec_spec :
    (∀ s : String, (∀ c ∈ s.data, c.isDigit = false) → vlan_range_decode s = []) ∧
    (∀ s : String, searchVlans s.data = none → vlan_range_decode s = []) ∧
    (∀ (s : String) (m : List Char), searchVlans s.data = some m →
      (∃ pre post, s.data = pre ++ m ++ post ∧
        (∀ c ∈ pre, c.isDigit = false) ∧ m ≠ []) ∧
      vlan_range_decode s = parse_vlans (String.mk m)) ∧
    vlan_range_decode "12,14-18,23,28,80-90" =
      [12, 14, 15, 16, 17, 18, 23, 28, 80, 81, 82, 83, 84, 85, 86, 87, 88, 89, 90] ∧
    vlan_range_decode "20" = [20] := by
  refine ⟨fun s h => ?_, fun s h => ?_, fun s m h => ?_, by decide, by decide⟩
  · unfold vlan_range_decode
    rw [searchVlans_none s.data h]
  · unfold vlan_range_decode
    rw [h]
  · exact ⟨searchVlans_decomp s.data m h, by unfold vlan_range_decode; rw [h]⟩

/-- C6 witness: the codec theorem applied to the digit-free text
`"no vlans configured"`. -/
theorem vlan_range_codec_witness : vlan_range_decode "no vlans configured" = [] :=
  vlan_range_codec_spec.1 "no vlans configured" (by decide)

theorem tolerates_of_2xx (a : List Nat) (s : Nat) (h1 : 200 ≤ s)
    (h2 : s < 300) : tolerates a s = true := by
  unfold tolerates
  rw [decide_eq_true h1, decide_eq_true h2]
  rfl

theorem make_request_fst_of_2xx (dev : Nat → Response) (m u : String)
    (d : Option String) (a : List Nat) (st : St)
    (h1 : 200 ≤ (dev st.k).status) (h2 : (dev st.k).status < 300) :
    (make_request dev m u d a st).1 = .ok (dev st.k) := by
  simp [make_request, tolerates_of_2xx a _ h1 h2]

/-- C4: `is_shutdown` (the driver's `_is_interface_off`): an absent
shutdown field reads as not shut down, the value `"true"` as shut down,
and any other value raises a `SwitchError`. -/
theorem is_shutdown_spec (cfg : Config) (dev : Nat → Response) (i : String)
    (st : St) (h1 : 200 ≤ (dev st.k).status) (h2 : (dev st.k).status < 300) :
    ((dev st.k).doc.shutdown = none →
      (is_interface_off cfg dev i st).1 = .ok false) ∧
    ((dev st.k).doc.shutdown = some "true" →
      (is_interface_off cfg dev i st).1 = .ok true) ∧
    (∀ v, (dev st.k).doc.shutdown = some v → v ≠ "true" →
      (is_interface_off cfg dev i st).1 =
        .error (.switchError "Could not determine if interface is off")) := by
  have hok := make_request_fst_of_2xx dev "GET" (construct_url cfg i "")
    none [] st h1 h2
  refine ⟨fun hs => ?_, fun hs => ?_, fun v hs hv => ?_⟩
  · simp [is_interface_off, hok, hs]
  · simp [is_interface_off, hok, hs]
  · simp [is_interface_off, hok, hs, hv]

/-- C4 witness: the three cases at concrete devices (shutdown absent,
`"true"`, and an unexpected value). -/
theorem is_shutdown_spec_witness :
    (is_interface_off cfg1 devOK "1/2" st0).1 = .ok false ∧
    (is_interface_off cfg1 devShut "1/2" st0).1 = .ok true ∧
    (is_interface_off cfg1 devShutBad "1/2" st0).1 =
      .error (.switchError "Could not determine if interface is off") :=
  ⟨(is_shutdown_spec cfg1 devOK "1/2" st0 (by decide) (by decide)).1 (by decide),
   (is_shutdown_spec cfg1 devShut "1/2" st0 (by decide) (by decide)).2.1 (by decide),
   (is_shutdown_spec cfg1 devShutBad "1/2" st0 (by decide) (by decide)).2.2
     "maybe" (by decide) (by decide)⟩

/-- C5: absent nested structure in the read paths is a normal state, not
a fault: `get_vlans` returns the empty list when any level of
`allowed/vlan/add` is missing, and `get_native_vlan` returns `none` when
the `native-vlan` element is missing. -/
theorem absent_structure_reads (cfg : Config) (dev : Nat → Response)
    (i : String) (st : St) (h1 : 200 ≤ (dev st.k).status)
    (h2 : (dev st.k).status < 300) :
    ((dev st.k).doc.allowed = none → (get_vlans cfg dev i st).1 = .ok []) ∧
    (∀ a, (dev st.k).doc.allowed = some a → a.vlan = none →
      (get_vlans cfg dev i st).1 = .ok []) ∧
    (∀ a w, (dev st.k).doc.allowed = some a → a.vlan = some w → w.add = none →
      (get_vlans cfg dev i st).1 = .ok []) ∧
    ((dev st.k).doc.nativeVlan = none →
      (get_native_vlan cfg dev i st).1 = .ok none) := by
  have hok := make_request_fst_of_2xx dev "GET" (construct_url cfg i "trunk")
    none [] st h1 h2
  refine ⟨fun hs => ?_, fun a hs hv => ?_, fun a w hs hv hw => ?_, fun hs => ?_⟩
  · simp [get_vlans, hok, hs]
  · simp [get_vlans, hok, hs, hv]
  · simp [get_vlans, hok, hs, hv, hw]
  · simp [get_native_vlan, hok, hs]

/-- C5 witness: the absent-structure cases at concrete devices (fully
absent, `allowed` only, `allowed/vlan` only). -/
theorem absent_structure_reads_witness :
    (get_vlans cfg1 devOK "1/2" st0).1 = .ok [] ∧
    (get_vlans cfg1 devAllowedOnly "1/2" st0).1 = .ok [] ∧
    (get_vlans cfg1 devAllowedVlanOnly "1/2" st0).1 = .ok [] ∧
    (get_native_vlan cfg1 devOK "1/2" st0).1 = .ok none :=
  ⟨(absent_structure_reads cfg1 devOK "1/2" st0 (by decide) (by decide)).1
      (by decide),
   (absent_structure_reads cfg1 devAllowedOnly "1/2" st0 (by decide)
      (by decide)).2.1 ⟨none⟩ (by decide) (by decide),
   (absent_structure_reads cfg1 devAllowedVlanOnly "1/2" st0 (by decide)
      (by decide)).2.2.1 ⟨some ⟨none⟩⟩ ⟨none⟩ (by decide) (by decide) (by decide),
   (absent_structure_reads cfg1 devOK "1/2" st0 (by decide)
      (by decide)).2.2.2 (by decide)⟩

/-- C10: unlike the other readers, `get_mode` dereferences the
`vlan-mode` element without a guard: when the element is absent the
result is an uncaught `AttributeError` — not a `SwitchError` and not a
default value — while `get_vlans`/`get_native_vlan` map the same kind of
absence to `[]`/`none`. -/
theorem get_mode_absent_attribute_error (cfg : Config) (dev : Nat → Response)
    (i : String) (st : St) (h1 : 200 ≤ (dev st.k).status)
    (h2 : (dev st.k).status < 300)
    (hm : (dev st.k).doc.vlanMode = none) :
    (get_mode cfg dev i st).1 = .error .attributeError ∧
    (∀ msg, (get_mode cfg dev i st).1 ≠ .error (.switchError msg)) ∧
    ((dev st.k).doc.allowed = none → (get_vlans cfg dev i st).1 = .ok []) ∧
    ((dev st.k).doc.nativeVlan = none →
      (get_native_vlan cfg dev i st).1 = .ok none) := by
  have hok := make_request_fst_of_2xx dev "GET" (construct_url cfg i "mode")
    none [] st h1 h2
  have hok2 := make_request_fst_of_2xx dev "GET" (construct_url cfg i "trunk")
    none [] st h1 h2
  have hmode : (get_mode cfg dev i st).1 = .error .attributeError := by
    simp [get_mode, hok, hm]
  refine ⟨hmode, fun msg => ?_, fun hs => ?_, fun hs => ?_⟩
  · rw [hmode]; simp
  · simp [get_vlans, hok2, hs]
  · simp [get_native_vlan, hok2, hs]

/-- C10 witness: at a concrete device returning an empty document. -/
theorem get_mode_absent_attribute_error_witness :
    (get_mode cfg1 devOK "1/2" st0).1 = .error .attributeError ∧
    (get_vlans cfg1 devOK "1/2" st0).1 = .ok [] :=
  ⟨(get_mode_absent_attribute_error cfg1 devOK "1/2" st0 (by decide) (by decide)
      (by decide)).1,
   (get_mode_absent_attribute_error cfg1 devOK "1/2" st0 (by decide) (by decide)
      (by decide)).2.2.1 (by decide)⟩

/-- C9: conflict-class (409) responses are tolerated where the device may
already be in the target state: `shutdown` succeeds when the device
answers 409, and `enable_and_set_mode`'s switching-enable POST answering
409 (as on a repeated call with the same mode) does not raise. -/
theorem conflict_idempotent (cfg : Config) (dev : Nat → Response)
    (i mode : String) (st : St) :
    ((dev st.k).status = 409 →
      port_shutdown cfg dev i st =
        (.ok (), ⟨st.k + 1, st.trace ++
          [⟨"POST", construct_url cfg i "",
            some "<shutdown>true</shutdown>", [409]⟩]⟩)) ∧
    ((dev st.k).status = 200 → (dev st.k).doc.shutdown = none →
      (dev (st.k + 1)).status = 409 → (mode = "access" ∨ mode = "trunk") →
      200 ≤ (dev (st.k + 2)).status → (dev (st.k + 2)).status < 300 →
      (enable_and_set_mode cfg dev i mode st).1 = .ok ()) := by
  constructor
  · intro h409
    have htol : tolerates [409] (dev st.k).status = true := by rw [h409]; decide
    simp [port_shutdown, make_request, htol, Except.map]
  · intro hA hshut hB hm h1 h2
    have hio : (is_interface_off cfg dev i st).1 = .ok false := by
      simp [is_interface_off, make_request, tolerates, hA, hshut]
    have hsnd := is_interface_off_snd cfg dev i st
    have hBtol : tolerates [409] (dev (st.k + 1)).status = true := by
      rw [hB]; decide
    have hCtol : tolerates [] (dev (st.k + 1 + 1)).status = true := by
      have he : st.k + 1 + 1 = st.k + 2 := by omega
      rw [he]; exact tolerates_of_2xx [] _ h1 h2
    rcases hm with rfl | rfl <;>
      simp [enable_and_set_mode, hio, hsnd, maybeClearShutdown, make_request,
        hBtol, hCtol, Except.map]

/-- C9 witness: at a device answering the switching-enable POST with 409
and the other requests with 200; and `shutdown` against a device that
always answers 409. -/
theorem conflict_idempotent_witness :
    (port_shutdown cfg1 dev409 "1/2" st0 =
      (.ok (), ⟨1, [⟨"POST", construct_url cfg1 "1/2" "",
        some "<shutdown>true</shutdown>", [409]⟩]⟩)) ∧
    (enable_and_set_mode cfg1 dev409second "1/2" "trunk" st0).1 = .ok () :=
  ⟨(conflict_idempotent cfg1 dev409 "1/2" "trunk" st0).1 (by decide),
   (conflict_idempotent cfg1 dev409second "1/2" "trunk" st0).2 (by decide)
     (by decide) (by decide) (Or.inr rfl) (by decide) (by decide)⟩

/-- C7: `add_vlan_to_trunk` runs the full `enable_and_set_mode` trunk
sequence first: if that sequence fails, the whole operation fails with the
same error and state — the membership request is never issued — and if it
succeeds, the allowed-VLAN addition request is issued strictly after every
request of the mode sequence. -/
theorem add_vlan_to_trunk_order (cfg : Config) (dev : Nat → Response)
    (i v : String) (st : St) :
    (∀ e st1, enable_and_set_mode cfg dev i "trunk" st = (.error e, st1) →
      add_vlan_to_trunk cfg dev i v st = (.error e, st1)) ∧
    (∀ st1, enable_and_set_mode cfg dev i "trunk" st = (.ok (), st1) →
      (add_vlan_to_trunk cfg dev i v st).2 =
        ⟨st1.k + 1, st1.trace ++ [putAddVlanReq cfg i v]⟩) := by
  constructor
  · intro e st1 h
    simp [add_vlan_to_trunk, h]
  · intro st1 h
    simp [add_vlan_to_trunk, h, make_request_snd, putAddVlanReq]

/-- C7 witness: against a device that accepts everything, the three
requests of the trunk-mode sequence precede the membership request. -/
theorem add_vlan_to_trunk_order_witness :
    (add_vlan_to_trunk cfg1 devOK "1/2" "5" st0).2 =
      ⟨(enable_and_set_mode cfg1 devOK "1/2" "trunk" st0).2.k + 1,
       (enable_and_set_mode cfg1 devOK "1/2" "trunk" st0).2.trace ++
         [putAddVlanReq cfg1 "1/2" "5"]⟩ :=
  (add_vlan_to_trunk_order cfg1 devOK "1/2" "5" st0).2
    (enable_and_set_mode cfg1 devOK "1/2" "trunk" st0).2 (by decide)

/-- C8: `set_native_vlan` issues its requests in the mandated order:
the trunk-mode sequence first (its failure halts everything), then the
native-tag disable request — which tolerates exactly a 404 response —
and only then the native-VLAN set request. -/
theorem set_native_vlan_order (cfg : Config) (dev : Nat → Response)
    (i v : String) (st : St) :
    (∀ e st1, enable_and_set_mode cfg dev i "trunk" st = (.error e, st1) →
      set_native_vlan cfg dev i v st = (.error e, st1)) ∧
    (∀ st1, enable_and_set_mode cfg dev i "trunk" st = (.ok (), st1) →
      (disable_native_tag cfg dev i st1).2 =
        ⟨st1.k + 1, st1.trace ++ [delNativeTagReq cfg i]⟩ ∧
      (∀ e st2, disable_native_tag cfg dev i st1 = (.error e, st2) →
        set_native_vlan cfg dev i v st = (.error e, st2)) ∧
      (∀ st2, disable_native_tag cfg dev i st1 = (.ok (), st2) →
        (set_native_vlan cfg dev i v st).2 =
          ⟨st2.k + 1, st2.trace ++ [putNativeVlanReq cfg i v]⟩)) ∧
    (delNativeTagReq cfg i).acceptable = [404] := by
  refine ⟨?_, ?_, rfl⟩
  · intro e st1 h
    simp [set_native_vlan, h]
  · intro st1 h
    refine ⟨by simp [disable_native_tag, make_request_snd, delNativeTagReq], ?_, ?_⟩
    · intro e st2 h2
      simp [set_native_vlan, h, h2]
    · intro st2 h2
      simp [set_native_vlan, h, h2, make_request_snd, putNativeVlanReq]

/-- C8 witness: against a device that accepts everything, the native-VLAN
set request is issued last, after the mode sequence and the tag-disable
request. -/
theorem set_native_vlan_order_witness :
    (set_native_vlan cfg1 devOK "1/2" "50" st0).2 =
      ⟨(disable_native_tag cfg1 devOK "1/2"
          (enable_and_set_mode cfg1 devOK "1/2" "trunk" st0).2).2.k + 1,
       (disable_native_tag cfg1 devOK "1/2"
          (enable_and_set_mode cfg1 devOK "1/2" "trunk" st0).2).2.trace ++
         [putNativeVlanReq cfg1 "1/2" "50"]⟩ :=
  (((set_native_vlan_order cfg1 devOK "1/2" "50" st0).2.1
      (enable_and_set_mode cfg1 devOK "1/2" "trunk" st0).2 (by decide)).2.2
    (disable_native_tag cfg1 devOK "1/2"
      (enable_and_set_mode cfg1 devOK "1/2" "trunk" st0).2).2 (by decide))

theorem reqs_not_put (cfg : Config) (i : String) :
    ∀ r ∈ [getShutdownReq cfg i, delShutdownReq cfg i, postSwitchportReq cfg i],
      r.method ≠ "PUT" := by
  intro r hr
  simp only [List.mem_cons, List.not_mem_nil, or_false] at hr
  rcases hr with rfl | rfl | rfl <;>
    simp [getShutdownReq, delShutdownReq, postSwitchportReq]

/-- On an invalid mode, `enable_and_set_mode` ends in an error on every
path, and every request it issued on the way is one of the shutdown-check
GET, the shutdown-clear DELETE and the switching-enable POST. -/
theorem enable_invalid_shape (cfg : Config) (dev : Nat → Response)
    (i mode : String) (st : St) (hm1 : mode ≠ "access") (hm2 : mode ≠ "trunk") :
    ∃ e l, enable_and_set_mode cfg dev i mode st =
      (.error e, ⟨st.k + l.length, st.trace ++ l⟩) ∧
      l ⊆ [getShutdownReq cfg i, delShutdownReq cfg i, postSwitchportReq cfg i] := by
  have hmode : (decide (mode = "access") || decide (mode = "trunk")) = false := by
    simp [hm1, hm2]
  have hiosnd := is_interface_off_snd cfg dev i st
  rcases hio : (is_interface_off cfg dev i st).1 with e | off
  · refine ⟨e, [getShutdownReq cfg i], ?_, by simp [List.subset_def]⟩
    simp [enable_and_set_mode, hio, hiosnd]
  · cases off with
    | false =>
      rcases hpost : (make_request dev "POST" (construct_url cfg i "")
          (some "<switchport></switchport>") [409]
          ⟨st.k + 1, st.trace ++ [getShutdownReq cfg i]⟩).1 with e | resp
      · refine ⟨e, [getShutdownReq cfg i, postSwitchportReq cfg i], ?_,
          by simp [List.subset_def]⟩
        simp [enable_and_set_mode, hio, maybeClearShutdown, hpost,
          make_request_snd, hiosnd, postSwitchportReq, Except.map,
          List.append_assoc, Nat.add_assoc]
      · refine ⟨.assertionError "Invalid mode",
          [getShutdownReq cfg i, postSwitchportReq cfg i], ?_,
          by simp [List.subset_def]⟩
        simp [enable_and_set_mode, hio, maybeClearShutdown, hpost, hmode,
          make_request_snd, hiosnd, postSwitchportReq, Except.map,
          List.append_assoc, Nat.add_assoc]
    | true =>
      rcases hdel : (make_request dev "DELETE" (construct_url cfg i "" ++ "/shutdown")
          none [] ⟨st.k + 1, st.trace ++ [getShutdownReq cfg i]⟩).1 with e | resp
      · refine ⟨e, [getShutdownReq cfg i, delShutdownReq cfg i], ?_,
          by simp [List.subset_def]⟩
        simp [enable_and_set_mode, hio, maybeClearShutdown, hdel,
          make_request_snd, hiosnd, delShutdownReq, Except.map,
          List.append_assoc, Nat.add_assoc]
      · rcases hpost : (make_request dev "POST" (construct_url cfg i "")
            (some "<switchport></switchport>") [409]
            ⟨st.k + 2, st.trace ++ [getShutdownReq cfg i,
              ⟨"DELETE", construct_url cfg i "" ++ "/shutdown", none, []⟩]⟩).1
            with e | resp2
        · refine ⟨e, [getShutdownReq cfg i, delShutdownReq cfg i,
            postSwitchportReq cfg i], ?_, by simp [List.subset_def]⟩
          simp [enable_and_set_mode, hio, maybeClearShutdown, hdel, hpost,
            make_request_snd, hiosnd, delShutdownReq, postSwitchportReq,
            Except.map, List.append_assoc, Nat.add_assoc]
        · refine ⟨.assertionError "Invalid mode",
            [getShutdownReq cfg i, delShutdownReq cfg i, postSwitchportReq cfg i],
            ?_, by simp [List.subset_def]⟩
          simp [enable_and_set_mode, hio, maybeClearShutdown, hdel, hpost, hmode,
            make_request_snd, hiosnd, delShutdownReq, postSwitchportReq,
            Except.map, List.append_assoc, Nat.add_assoc]

/-- C1 counterexample: against a device that accepts every request,
`enable_and_set_mode` with the invalid mode `"bogus"` raises
`AssertionError` — not HIL's `BadArgumentError` — and two transport
requests have already been issued when it raises, not zero. -/
theorem enable_and_set_mode_invalid_mode_cex :
    (enable_and_set_mode cfg1 devOK "1/2" "bogus" st0).1 =
      .error (.assertionError "Invalid mode") ∧
    (enable_and_set_mode cfg1 devOK "1/2" "bogus" st0).2.trace.length = 2 := by
  decide

/-- C1 (amended): for every mode other than `access`/`trunk`,
`enable_and_set_mode` never succeeds and never issues the mode-set PUT
request; but the fault is an `AssertionError`, raised only after the
shutdown-check GET and switching-enable POST: on a device that accepts
those requests (status 200, shutdown absent), exactly those two requests
have been issued when it raises. -/
theorem enable_and_set_mode_invalid_mode (cfg : Config) (dev : Nat → Response)
    (i mode : String) (st : St) (hm1 : mode ≠ "access") (hm2 : mode ≠ "trunk") :
    (∃ e, (enable_and_set_mode cfg dev i mode st).1 = .error e) ∧
    (∃ l, (enable_and_set_mode cfg dev i mode st).2.trace = st.trace ++ l ∧
      ∀ r ∈ l, r.method ≠ "PUT") ∧
    ((dev st.k).status = 200 → (dev st.k).doc.shutdown = none →
      (dev (st.k + 1)).status = 200 →
      enable_and_set_mode cfg dev i mode st =
        (.error (.assertionError "Invalid mode"),
         ⟨st.k + 2, st.trace ++ [getShutdownReq cfg i, postSwitchportReq cfg i]⟩)) := by
  obtain ⟨e, l, heq, hsub⟩ := enable_invalid_shape cfg dev i mode st hm1 hm2
  refine ⟨⟨e, by rw [heq]⟩,
    ⟨l, by rw [heq], fun r hr => reqs_not_put cfg i r (hsub hr)⟩, ?_⟩
  intro hA hshut hB
  have hmode : (decide (mode = "access") || decide (mode = "trunk")) = false := by
    simp [hm1, hm2]
  have hio : (is_interface_off cfg dev i st).1 = .ok false := by
    simp [is_interface_off, make_request, tolerates, hA, hshut]
  have hBtol : tolerates [409] (dev (st.k + 1)).status = true := by
    rw [hB]; decide
  have hiosnd := is_interface_off_snd cfg dev i st
  simp [enable_and_set_mode, hio, hiosnd, maybeClearShutdown, make_request,
    hBtol, hmode, postSwitchportReq, getShutdownReq, List.append_assoc,
    Nat.add_assoc]

/-- C1 witness: the amended theorem at the concrete invalid mode
`"bogus"` against an all-accepting device. -/
theorem enable_and_set_mode_invalid_mode_witness :
    enable_and_set_mode cfg1 devOK "1/2" "bogus" st0 =
      (.error (.assertionError "Invalid mode"),
       ⟨2, [getShutdownReq cfg1 "1/2", postSwitchportReq cfg1 "1/2"]⟩) :=
  (enable_and_set_mode_invalid_mode cfg1 devOK "1/2" "bogus" st0
    (by decide) (by decide)).2.2 (by decide) (by decide) (by decide)

/-- C2 counterexample: `remove_all_vlans_from_trunk` does not follow the
tolerated-status discipline: against a device answering 500 — a status no
step tolerates — its single request still reports success instead of a
`SwitchError`. -/
theorem remove_all_vlans_from_trunk_cex :
    (dev500 0).status = 500 ∧ tolerates [] (dev500 0).status = false ∧
    (remove_all_vlans_from_trunk cfg1 dev500 "1/2" st0).1 = .ok () := by
  decide

/-- C2 (amended): every request issued through `_make_request` follows
the discipline — a status outside the 2xx class and the step's tolerated
set propagates as a `SwitchError`, and a failing first step of
`set_native_vlan`/`add_vlan_to_trunk` halts the operation with exactly that
one request issued — but `remove_all_vlans_from_trunk`'s single request
bypasses `_make_request` and never raises, whatever the status. -/
theorem transport_fault_discipline (cfg : Config) (dev : Nat → Response)
    (i v : String) (st : St) :
    (∀ m u d a, tolerates a (dev st.k).status = false →
      make_request dev m u d a st =
        (.error (.switchError "request failed"),
         ⟨st.k + 1, st.trace ++ [⟨m, u, d, a⟩]⟩)) ∧
    (tolerates [] (dev st.k).status = false →
      set_native_vlan cfg dev i v st =
        (.error (.switchError "request failed"),
         ⟨st.k + 1, st.trace ++ [getShutdownReq cfg i]⟩) ∧
      add_vlan_to_trunk cfg dev i v st =
        (.error (.switchError "request failed"),
         ⟨st.k + 1, st.trace ++ [getShutdownReq cfg i]⟩)) ∧
    (remove_all_vlans_from_trunk cfg dev i st).1 = .ok () := by
  refine ⟨fun m u d a h => ?_, fun h => ?_, rfl⟩
  · simp [make_request, h]
  · have hio : is_interface_off cfg dev i st =
        (.error (.switchError "request failed"),
         ⟨st.k + 1, st.trace ++ [getShutdownReq cfg i]⟩) := by
      simp [is_interface_off, make_request, h, getShutdownReq]
    have hen : enable_and_set_mode cfg dev i "trunk" st =
        (.error (.switchError "request failed"),
         ⟨st.k + 1, st.trace ++ [getShutdownReq cfg i]⟩) := by
      simp [enable_and_set_mode, hio]
    constructor
    · simp [set_native_vlan, hen]
    · simp [add_vlan_to_trunk, hen]

/-- C2 witness: the amended theorem at a device that answers 500. -/
theorem transport_fault_discipline_witness :
    set_native_vlan cfg1 dev500 "1/2" "50" st0 =
      (.error (.switchError "request failed"),
       ⟨1, [getShutdownReq cfg1 "1/2"]⟩) :=
  ((transport_fault_discipline cfg1 dev500 "1/2" "50" st0).2.1 (by decide)).1

end Brocade
